import Mathlib

/-!
Shallow embedding of the HTTP/1.1 toy server in `src/src/main.rs`.

Strings from the source are modelled as `List Char` (abbreviated `Str`),
which is the character sequence Rust sees after `String::from_utf8_lossy`
on the fixed 1024-byte read buffer.  All splitting/trimming/lowercasing
primitives of the Rust standard library that the source uses are given
structurally recursive definitions here so that every definition evaluates
by `decide` / `rfl`.  Byte sequences (`Vec<u8>`, file contents) are
`List Nat`.  The filesystem is an external collaborator and enters as an
explicit parameter.  Writing a response to the TCP stream is modelled by
returning the written buffer(s); a panic of the per-connection task
(an `unwrap()` on a failing value in the source) is modelled as `none`.
-/

set_option maxRecDepth 10000

abbrev Str := List Char

/-- The CRLF line terminator constant of the source (src/src/main.rs:11). -/
def CLRF : Str := "\r\n".data

/-- UTF-8 encoding of one character, as Rust's `str::as_bytes` produces it. -/
def charUtf8 (c : Char) : List Nat :=
  let n := c.toNat
  if n < 0x80 then [n]
  else if n < 0x800 then
    [0xC0 ||| (n >>> 6), 0x80 ||| (n &&& 0x3F)]
  else if n < 0x10000 then
    [0xE0 ||| (n >>> 12), 0x80 ||| ((n >>> 6) &&& 0x3F), 0x80 ||| (n &&& 0x3F)]
  else
    [0xF0 ||| (n >>> 18), 0x80 ||| ((n >>> 12) &&& 0x3F),
     0x80 ||| ((n >>> 6) &&& 0x3F), 0x80 ||| (n &&& 0x3F)]

/-- The UTF-8 bytes of a string; `s.len()` in Rust is `(strBytes s).length`. -/
def strBytes (s : Str) : List Nat := s.flatMap charUtf8

/-- Prepends a character to the first piece of a split result. -/
def consHead (c : Char) : List Str → List Str
  | [] => [[c]]
  | h :: t => (c :: h) :: t

/-- Rust `str::split` with a one-character pattern, generalised to a predicate
(used for `split("/")` and, filtered, for `split_whitespace`). -/
def splitP (p : Char → Bool) : Str → List Str
  | [] => [[]]
  | c :: cs => if p c then [] :: splitP p cs else consHead c (splitP p cs)

/-- Rust `str::split(c)` for a single-character pattern. -/
def splitChar (c : Char) (s : Str) : List Str := splitP (fun x => x == c) s

/-- Rust `str::split_whitespace`: split on whitespace runs, dropping empty
tokens (src/src/main.rs:247). -/
def splitWS (s : Str) : List Str :=
  (splitP Char.isWhitespace s).filter (fun l => !l.isEmpty)

/-- Rust `str::split` on the pattern `"\r\n\r\n"` (`CLRF.repeat(2)`),
the head/body separator of src/src/main.rs:204: non-overlapping,
left-to-right. -/
def splitCRLF2 : Str → List Str
  | '\r' :: '\n' :: '\r' :: '\n' :: rest => [] :: splitCRLF2 rest
  | c :: cs => consHead c (splitCRLF2 cs)
  | [] => [[]]

/-- Split at the first occurrence of `"\r\n\r\n"`: returns the text before the
separator and the text after it, or `none` when no separator occurs.  This is
the "first empty-line separator" notion of the specification. -/
def splitOnceCRLF2 : Str → Option (Str × Str)
  | '\r' :: '\n' :: '\r' :: '\n' :: rest => some ([], rest)
  | c :: cs => (splitOnceCRLF2 cs).map (fun p => (c :: p.1, p.2))
  | [] => none

/-- Rust `str::split_once(": ")` as used on header lines
(src/src/main.rs:138): split at the first occurrence of `": "`. -/
def splitOnceColonSp : Str → Option (Str × Str)
  | ':' :: ' ' :: rest => some ([], rest)
  | c :: cs => (splitOnceColonSp cs).map (fun p => (c :: p.1, p.2))
  | [] => none

/-- Strip one trailing carriage return, as Rust `str::lines` does to every
line that was terminated by a newline. -/
def stripCR (l : Str) : Str :=
  if l.getLast? = some '\r' then l.dropLast else l

/-- Rust `str::lines` (src/src/main.rs:208): lines are split at
newline characters, each `\n`-terminated piece loses a trailing `\r`,
and a final empty piece (from a trailing newline) is dropped. -/
def linesL (s : Str) : List Str :=
  let ps := splitChar '\n' s
  match ps.getLast? with
  | some [] => (ps.dropLast).map stripCR
  | some l => (ps.dropLast).map stripCR ++ [l]
  | none => []

/-- Rust `str::trim` as used on header values (src/src/main.rs:140). -/
def trimL (s : Str) : Str :=
  ((s.dropWhile Char.isWhitespace).reverse.dropWhile Char.isWhitespace).reverse

/-- Rust `str::to_lowercase` restricted to the ASCII range; the header and
content-type vocabulary the source compares against is all ASCII. -/
def lowerL (s : Str) : Str := s.map Char.toLower

/-- Method enumeration (src/src/main.rs:13-19). -/
inductive HttpMethod where
  | GET
  | POST
  | PUT
  | DELETE
deriving DecidableEq, BEq

/-- Version enumeration (src/src/main.rs:21-25). -/
inductive HttpVersion where
  | V1_0
  | V1_1
deriving DecidableEq, BEq

/-- Response header enumeration (src/src/main.rs:27-31). -/
inductive HttpResponseHeaders where
  | ContentType
  | ContentLength
deriving DecidableEq, BEq

/-- Wire prefix of a response header (src/src/main.rs:33-40); the prefix
already contains the `": "`. -/
def HttpResponseHeaders.as_str : HttpResponseHeaders → Str
  | .ContentType => "Content-Type: ".data
  | .ContentLength => "Content-Length: ".data

/-- Response header accumulator (src/src/main.rs:42-65). -/
structure HttpResponseHeaderBuilder where
  response_text : Str
deriving DecidableEq

/-- Fresh, empty builder (src/src/main.rs:47-51). -/
def HttpResponseHeaderBuilder.new : HttpResponseHeaderBuilder := ⟨[]⟩

/-- Append one `prefix ++ value ++ CRLF` header line (src/src/main.rs:53-60). -/
def HttpResponseHeaderBuilder.add (b : HttpResponseHeaderBuilder)
    (response_header : HttpResponseHeaders) (value : Str) :
    HttpResponseHeaderBuilder :=
  ⟨b.response_text ++ response_header.as_str ++ value ++ CLRF⟩

/-- Extract the accumulated header block (src/src/main.rs:62-64). -/
def HttpResponseHeaderBuilder.get_response_string
    (b : HttpResponseHeaderBuilder) : Str :=
  b.response_text

/-- Request header enumeration (src/src/main.rs:67-74). -/
inductive HttpRequestHeaders where
  | UserAgent
  | Host
  | Accept
  | ContentType
  | ContentLength
deriving DecidableEq, BEq

/-- Case-insensitive recognition of a request header name
(src/src/main.rs:87-97); unrecognized names give `none`. -/
def HttpRequestHeaders.from_str (header : Str) : Option HttpRequestHeaders :=
  let l := lowerL header
  if l = "user-agent".data then some .UserAgent
  else if l = "host".data then some .Host
  else if l = "accept".data then some .Accept
  else if l = "content-type".data then some .ContentType
  else if l = "content-length".data then some .ContentLength
  else none

/-- Content types (src/src/main.rs:100-105): two named variants and a
catch-all carrying the lowercased raw string. -/
inductive ContentType where
  | TextPlain
  | ApplicationOctetStream
  | Other (s : Str)
deriving DecidableEq, BEq

/-- Case-insensitive content-type recognition (src/src/main.rs:108-114). -/
def ContentType.from_str (content_type : Str) : ContentType :=
  let l := lowerL content_type
  if l = "text/plain".data then .TextPlain
  else if l = "application/octet-stream".data then .ApplicationOctetStream
  else .Other l

/-- Canonical wire string of a content type (src/src/main.rs:116-122). -/
def ContentType.as_str : ContentType → Str
  | .TextPlain => "text/plain".data
  | .ApplicationOctetStream => "application/octet-stream".data
  | .Other s => s

/-- Ordered request-header collection (src/src/main.rs:125-127). -/
structure HttpRequestHeaderParser where
  headers : List (HttpRequestHeaders × Str)
deriving DecidableEq

/-- Header-block parsing (src/src/main.rs:136-144): each line is split at the
first `": "` (lines without one are skipped), the key is mapped through the
closed header set (unrecognized keys are skipped), and the trimmed value is
stored in order. -/
def HttpRequestHeaderParser.parse (header_lines : List Str) :
    HttpRequestHeaderParser :=
  ⟨header_lines.filterMap (fun line =>
    (splitOnceColonSp line).bind (fun kv =>
      (HttpRequestHeaders.from_str kv.1).map (fun h => (h, trimL kv.2))))⟩

/-- First-match header lookup (src/src/main.rs:146-151). -/
def HttpRequestHeaderParser.get_header_value (hp : HttpRequestHeaderParser)
    (header : HttpRequestHeaders) : Option Str :=
  (hp.headers.find? (fun p => p.1 == header)).map (fun p => p.2)

/-- Derived content type of the request (src/src/main.rs:153-156). -/
def HttpRequestHeaderParser.get_content_type (hp : HttpRequestHeaderParser) :
    Option ContentType :=
  (hp.get_header_value .ContentType).map ContentType.from_str

/-- Structural content-type comparison, false when the header is absent
(src/src/main.rs:158-161). -/
def HttpRequestHeaderParser.is_content_type (hp : HttpRequestHeaderParser)
    (content_type : ContentType) : Bool :=
  match hp.get_content_type with
  | some ct => ct == content_type
  | none => false

/-- Raw request body (src/src/main.rs:164-180). -/
structure HttpRequestBody where
  raw_content : List Nat
deriving DecidableEq

/-- Body constructor (src/src/main.rs:169-171). -/
def HttpRequestBody.new (raw_content : List Nat) : HttpRequestBody :=
  ⟨raw_content⟩

/-- The body's raw bytes (src/src/main.rs:173-175). -/
def HttpRequestBody.as_bytes (b : HttpRequestBody) : List Nat :=
  b.raw_content

/-- What gets written to the connection: the `respond_*` helpers perform a
single `stream.write` of a formatted string, while `respond_byte_body`
performs two writes, the header buffer and then the raw payload bytes
(src/src/main.rs:365-376). -/
inductive HttpResponse where
  | text (s : Str)
  | bytes (head : Str) (body : List Nat)
deriving DecidableEq

/-- The buffer written by `respond_ok` (src/src/main.rs:378-387). -/
def respond_ok (headers body : Option Str) : Str :=
  "HTTP/1.1 200 OK\r\n".data ++ headers.getD [] ++ CLRF ++ body.getD []

/-- The buffer written by `respond_not_found` (src/src/main.rs:389-398). -/
def respond_not_found (headers body : Option Str) : Str :=
  "HTTP/1.1 404 Not Found\r\n".data ++ headers.getD [] ++ CLRF ++ body.getD []

/-- The buffer written by `respond_created` (src/src/main.rs:400-409). -/
def respond_created (headers body : Option Str) : Str :=
  "HTTP/1.1 201 Created\r\n".data ++ headers.getD [] ++ CLRF ++ body.getD []

/-- The buffer written by `respond_conflict` (src/src/main.rs:411-420). -/
def respond_conflict (headers body : Option Str) : Str :=
  "HTTP/1.1 409 Conflict\r\n".data ++ headers.getD [] ++ CLRF ++ body.getD []

/-- The buffer written by `respond_internal_server_error`
(src/src/main.rs:422-435). -/
def respond_internal_server_error (headers body : Option Str) : Str :=
  "HTTP/1.1 500 Internal Server Error\r\n".data ++ headers.getD [] ++ CLRF
    ++ body.getD []

/-- The buffer written by `respond_bad_request` (src/src/main.rs:437-446). -/
def respond_bad_request (headers body : Option Str) : Str :=
  "HTTP/1.1 400 Bad Request\r\n".data ++ headers.getD [] ++ CLRF ++ body.getD []

/-- Text-mode 200 response (src/src/main.rs:353-363): Content-Type defaults
to text/plain, Content-Length is the body's byte length (`String::len`). -/
def respond_string_body (body : Str) (content_type : Option Str) : Str :=
  let header := ((HttpResponseHeaderBuilder.new.add
      HttpResponseHeaders.ContentType
      (content_type.getD "text/plain".data)).add
      HttpResponseHeaders.ContentLength
      (Nat.repr (strBytes body).length).data).get_response_string
  respond_ok (some header) (some body)

/-- Binary-mode 200 response (src/src/main.rs:365-376): the header buffer is
written first, then the payload bytes; Content-Length is `Vec::len`. -/
def respond_byte_body (body : List Nat) (content_type : Option Str) :
    HttpResponse :=
  let header := ((HttpResponseHeaderBuilder.new.add
      HttpResponseHeaders.ContentType
      (content_type.getD "text/plain".data)).add
      HttpResponseHeaders.ContentLength
      (Nat.repr body.length).data).get_response_string
  .bytes ("HTTP/1.1 200 OK\r\n".data ++ header ++ CLRF) body

/-- Request-line parsing (src/src/main.rs:246-267): split on whitespace into
exactly three tokens, map the method token through the closed method set and
the version token through the closed version set; any other token count or an
unrecognized method or version token fails the parse. -/
def HttpMethod.from_token (s : Str) : Option HttpMethod :=
  if s = "GET".data then some .GET
  else if s = "POST".data then some .POST
  else if s = "PUT".data then some .PUT
  else if s = "DELETE".data then some .DELETE
  else none

/-- Version-token recognition of src/src/main.rs:257-261. -/
def HttpVersion.from_token (s : Str) : Option HttpVersion :=
  if s = "HTTP/1.0".data then some .V1_0
  else if s = "HTTP/1.1".data then some .V1_1
  else none

/-- Mirrors `parse_request_line` (src/src/main.rs:246-267). -/
def parse_request_line (request_line : Str) :
    Option (HttpMethod × Str × HttpVersion) :=
  match splitWS request_line with
  | [m, p, v] =>
    match HttpMethod.from_token m, HttpVersion.from_token v with
    | some method, some version => some (method, p, version)
    | _, _ => none
  | _ => none

/-- Modelled from the spec: the canonical wire token of each method, used to
state the request-line round-trip property; the source only defines the
token-to-method direction. -/
def HttpMethod.to_token : HttpMethod → Str
  | .GET => "GET".data
  | .POST => "POST".data
  | .PUT => "PUT".data
  | .DELETE => "DELETE".data

/-- Modelled from the spec: the canonical wire token of each version, used to
state the request-line round-trip property; the source only defines the
token-to-version direction. -/
def HttpVersion.to_token : HttpVersion → Str
  | .V1_0 => "HTTP/1.0".data
  | .V1_1 => "HTTP/1.1".data

/-- The path remainder computed identically by the echo, file-read and
file-write handlers (src/src/main.rs:270-274, 287-291, 311-315): split the
path on `/`, skip the first two segments, rejoin the rest with `/`. -/
def pathRemainder (path : Str) : Str :=
  List.intercalate "/".data ((splitChar '/' path).drop 2)

/-- Outcome of the file-read collaborator used by `endpoint_get_files`
(src/src/main.rs:296-298): `File::open` may fail, and `read_to_end` on an
opened file may itself fail (for example when the path names a directory);
otherwise it yields the file's bytes. -/
inductive FileReadResult where
  | openErr
  | readErr
  | content (bytes : List Nat)
deriving DecidableEq

/-- The blob-store view used by the file-write handler: a key-value map from
full file paths to stored bytes.  `fs::metadata` succeeds exactly on present
keys; `File::create_new` and `write_all` succeed when the key is absent, per
the blob-store collaborator contract, so the 500 branches of the source
(src/src/main.rs:335-347) are unreachable in this model. -/
abbrev BlobStore := Str → Option (List Nat)

/-- Mirrors `endpoint_get_echo` (src/src/main.rs:269-276). -/
def endpoint_get_echo (path : Str) : HttpResponse :=
  .text (respond_string_body (pathRemainder path) none)

/-- Mirrors `endpoint_get_user_agent` (src/src/main.rs:278-284). -/
def endpoint_get_user_agent (hp : HttpRequestHeaderParser) : HttpResponse :=
  match hp.get_header_value HttpRequestHeaders.UserAgent with
  | some user_agent => .text (respond_string_body user_agent none)
  | none => .text (respond_not_found none none)

/-- Mirrors `endpoint_get_files` (src/src/main.rs:286-303).  The storage root
(`env::args()[2]`) is a parameter; the filesystem is the `fsRead`
collaborator.  A `readErr` hits the `read_to_end(..).unwrap()` of
src/src/main.rs:298 and panics the task, modelled as `none`. -/
def endpoint_get_files (fsRead : Str → FileReadResult)
    (storage_root path : Str) : Option HttpResponse :=
  let file_name := pathRemainder path
  let file_path := storage_root ++ file_name
  match fsRead file_path with
  | .content buf =>
    some (respond_byte_body buf (some "application/octet-stream".data))
  | .readErr => none
  | .openErr => some (.text (respond_not_found none none))

/-- Mirrors `endpoint_post_files` (src/src/main.rs:305-351): content-type
check first, then the existence check, then the body-presence check; a
successful creation stores exactly the body's bytes under the joined path and
answers 201 with empty headers and body. -/
def endpoint_post_files (store : BlobStore) (storage_root path : Str)
    (headers : HttpRequestHeaderParser) (body : Option HttpRequestBody) :
    HttpResponse × BlobStore :=
  let file_name := pathRemainder path
  let file_path := storage_root ++ file_name
  if headers.is_content_type ContentType.ApplicationOctetStream = false then
    (.text (respond_bad_request none (some "unexpected content type".data)),
     store)
  else if (store file_path).isSome then
    (.text (respond_conflict none (some "file already exists.".data)), store)
  else
    match body with
    | some b =>
      (.text (respond_created none none),
       fun p => if p = file_path then some b.as_bytes else store p)
    | none =>
      (.text (respond_bad_request none (some "No body provided".data)), store)

/-- The head/body split of the raw request (src/src/main.rs:204):
`raw_request_str.split(&CLRF.repeat(2))`. -/
def requestPartsOf (raw_request_str : Str) : List Str :=
  splitCRLF2 raw_request_str

/-- The request line (src/src/main.rs:207-209): first line of the part before
the first empty-line separator, or `""` when there is none. -/
def requestLineOf (raw_request_str : Str) : Str :=
  ((linesL ((requestPartsOf raw_request_str).headD [])).headD [])

/-- The header lines (src/src/main.rs:210): every line of the head section
after the request line. -/
def headerLinesOf (raw_request_str : Str) : List Str :=
  (linesL ((requestPartsOf raw_request_str).headD [])).drop 1

/-- The body section (src/src/main.rs:227-232): `parts[1]` when the split
produced more than one part, else no body. -/
def bodyPartOf (raw_request_str : Str) : Option Str :=
  match requestPartsOf raw_request_str with
  | _ :: b :: _ => some b
  | _ => none

/-- The parsed request body (src/src/main.rs:227-232): the bytes of
`parts[1]`, wrapped in `HttpRequestBody`; `none` when no separator occurred,
which is distinct from an empty body. -/
def parsedBodyOf (raw_request_str : Str) : Option HttpRequestBody :=
  (bodyPartOf raw_request_str).map (fun b => HttpRequestBody.new (strBytes b))

/-- Mirrors `handle_connection` (src/src/main.rs:198-244) from the point
where the raw buffer has been lossily decoded to text.  The filesystem enters
as the `fsRead` collaborator (file-read routes) and the `store` map
(file-write route); the result is the response written to the stream together
with the store after the request, and `none` when the task panics — which the
source does on the `parse_request_line(..).unwrap()` of src/src/main.rs:212
and on the `read_to_end(..).unwrap()` of src/src/main.rs:298. -/
def handle_connection (fsRead : Str → FileReadResult) (store : BlobStore)
    (storage_root : Str) (raw_request_str : Str) :
    Option (HttpResponse × BlobStore) :=
  match parse_request_line (requestLineOf raw_request_str) with
  | none => none
  | some (method, path, version) =>
    if version ≠ HttpVersion.V1_1 then
      some (.text (respond_bad_request none
        (some "this server only supports HTTP version 1.1.".data)), store)
    else
      let hp := HttpRequestHeaderParser.parse (headerLinesOf raw_request_str)
      let body := parsedBodyOf raw_request_str
      match method with
      | HttpMethod.GET =>
        if path = "/".data then
          some (.text (respond_ok none none), store)
        else if "/echo/".data.isPrefixOf path then
          some (endpoint_get_echo path, store)
        else if path = "/user-agent".data then
          some (endpoint_get_user_agent hp, store)
        else if "/files/".data.isPrefixOf path then
          (endpoint_get_files fsRead storage_root path).map (fun r => (r, store))
        else
          some (.text (respond_not_found none none), store)
      | HttpMethod.POST =>
        if "/files/".data.isPrefixOf path then
          some (endpoint_post_files store storage_root path hp body)
        else
          some (.text (respond_not_found none none), store)
      | _ => some (.text (respond_not_found none none), store)

/-! Helper lemmas shared by the claim proofs. -/

/-- Characterisation of the head/body split: splitting on `"\r\n\r\n"` peels
off the text before the first separator occurrence and recurses on the text
after it; with no occurrence the whole string is the single part. -/
theorem splitCRLF2_eq (s : Str) :
    splitCRLF2 s = (match splitOnceCRLF2 s with
      | none => [s]
      | some (a, r) => a :: splitCRLF2 r) := by
  induction s using splitCRLF2.induct with
  | case1 rest ih => simp [splitCRLF2, splitOnceCRLF2]
  | case2 c cs hne ih =>
    cases hso : splitOnceCRLF2 cs with
    | none => simp_all [splitCRLF2, splitOnceCRLF2, consHead]
    | some p =>
      obtain ⟨a, r⟩ := p
      simp_all [splitCRLF2, splitOnceCRLF2, consHead]
  | case3 => simp [splitCRLF2, splitOnceCRLF2]

/-- Wire form of a default text-mode 200 response: status line, Content-Type
text/plain, Content-Length equal to the body's byte length, blank line,
body. -/
theorem respond_string_body_none (body : Str) :
    respond_string_body body none =
      "HTTP/1.1 200 OK\r\nContent-Type: text/plain\r\nContent-Length: ".data
        ++ (Nat.repr (strBytes body).length).data ++ "\r\n\r\n".data ++ body := by
  simp only [respond_string_body, respond_ok, HttpResponseHeaderBuilder.new,
    HttpResponseHeaderBuilder.add, HttpResponseHeaderBuilder.get_response_string,
    HttpResponseHeaders.as_str, CLRF, Option.getD, List.append_assoc]
  rfl

/-- A path with the echo route marker is not the root path. -/
theorem echo_marker_ne_root (path : Str)
    (h : "/echo/".data.isPrefixOf path = true) : path ≠ "/".data := by
  intro e
  rw [e] at h
  simp [List.isPrefixOf] at h

/-- A path with the files route marker is not the root path. -/
theorem files_marker_ne_root (path : Str)
    (h : "/files/".data.isPrefixOf path = true) : path ≠ "/".data := by
  intro e
  rw [e] at h
  simp [List.isPrefixOf] at h

/-- C1: the claim says a request whose request-line fails to parse gets a
400-class response and the handling task does not crash.  The source instead
calls `parse_request_line(request_line).unwrap()` (src/src/main.rs:212), so
on such a request the handling task panics and nothing is written: evaluated
on the unrecognized-method request-line `FOO / HTTP/1.1`, the parse fails and
`handle_connection` panics (modelled as `none`) instead of producing a
400-class response. -/
theorem c1_parse_failure_panics_not_400 :
    parse_request_line (requestLineOf "FOO / HTTP/1.1\r\n\r\n".data) = none ∧
    handle_connection (fun _ => FileReadResult.openErr) (fun _ => none) []
      "FOO / HTTP/1.1\r\n\r\n".data = none :=
  ⟨rfl, rfl⟩

/-- C2 counterexample: the claim says the parsed body's bytes equal the bytes
following the first empty-line separator.  On the request
`GET / HTTP/1.1\r\n\r\nAB\r\n\r\nCD` the bytes following the first separator
are `AB\r\n\r\nCD`, but the parsed body is only `AB` (`parts[1]` of the
split, truncated at the next separator occurrence). -/
theorem c2_body_not_all_bytes_after_separator :
    splitOnceCRLF2 "GET / HTTP/1.1\r\n\r\nAB\r\n\r\nCD".data =
      some ("GET / HTTP/1.1".data, "AB\r\n\r\nCD".data) ∧
    parsedBodyOf "GET / HTTP/1.1\r\n\r\nAB\r\n\r\nCD".data =
      some (HttpRequestBody.new (strBytes "AB".data)) ∧
    HttpRequestBody.new (strBytes "AB".data) ≠
      HttpRequestBody.new (strBytes "AB\r\n\r\nCD".data) := by
  refine ⟨rfl, rfl, ?_⟩
  decide

/-- C2 (amended): for every request buffer containing an empty-line
separator, the parsed body's raw bytes equal the bytes strictly between the
first separator and the next separator occurrence (or the end of the buffer
when none follows); when no separator exists the result is no-body (`none`),
which is distinct from an empty body. -/
theorem c2_body_is_first_segment_after_separator (s : Str) :
    (∀ h rest, splitOnceCRLF2 s = some (h, rest) →
      parsedBodyOf s = some (HttpRequestBody.new (strBytes
        (match splitOnceCRLF2 rest with
         | none => rest
         | some p => p.1)))) ∧
    (splitOnceCRLF2 s = none → parsedBodyOf s = none) := by
  constructor
  · intro h rest hso
    have h1 : splitCRLF2 s = h :: splitCRLF2 rest := by
      rw [splitCRLF2_eq s, hso]
    unfold parsedBodyOf bodyPartOf requestPartsOf
    rw [h1, splitCRLF2_eq rest]
    cases hr : splitOnceCRLF2 rest with
    | none => simp
    | some p => simp
  · intro hso
    have h1 : splitCRLF2 s = [s] := by
      rw [splitCRLF2_eq s, hso]
    unfold parsedBodyOf bodyPartOf requestPartsOf
    rw [h1]
    rfl

/-- C2 witness: on a concrete buffer with a separator inside the body section
the parsed body is the truncated segment, and a buffer with no separator
yields no-body. -/
theorem c2_body_segment_witness :
    parsedBodyOf "GET / HTTP/1.1\r\n\r\nAB\r\n\r\nCD".data =
      some (HttpRequestBody.new (strBytes "AB".data)) ∧
    parsedBodyOf "GET / HTTP/1.1".data = none := by
  constructor
  · have h := (c2_body_is_first_segment_after_separator
      "GET / HTTP/1.1\r\n\r\nAB\r\n\r\nCD".data).1
      "GET / HTTP/1.1".data "AB\r\n\r\nCD".data (by decide)
    exact h.trans (by decide)
  · exact (c2_body_is_first_segment_after_separator
      "GET / HTTP/1.1".data).2 (by decide)

/-- C3: the claim says any read failure whatsoever yields 404.  The source
returns 404 only when `File::open` fails; when the file opens but
`read_to_end` fails (for example the path names a directory) the
`unwrap()` of src/src/main.rs:298 panics the task and nothing is written.
Evaluated on `GET /files/dir`: a read failure after open panics (first
conjunct), while an open failure gives 404 and a successful read gives 200
with the bytes and content-type application/octet-stream (second and third
conjuncts). -/
theorem c3_read_failure_panics_not_404 :
    handle_connection
      (fun p => if p = "/tmp/dir".data then FileReadResult.readErr
        else FileReadResult.openErr)
      (fun _ => none) "/tmp/".data "GET /files/dir HTTP/1.1\r\n\r\n".data =
      none ∧
    handle_connection (fun _ => FileReadResult.openErr)
      (fun _ => none) "/tmp/".data "GET /files/dir HTTP/1.1\r\n\r\n".data =
      some (.text (respond_not_found none none), fun _ => none) ∧
    handle_connection
      (fun p => if p = "/tmp/dir".data then FileReadResult.content [1, 2, 3]
        else FileReadResult.openErr)
      (fun _ => none) "/tmp/".data "GET /files/dir HTTP/1.1\r\n\r\n".data =
      some (respond_byte_body [1, 2, 3] (some "application/octet-stream".data),
        fun _ => none) :=
  ⟨rfl, rfl, rfl⟩

/-- C4: every request whose request-line parses with version `HTTP/1.0` is
answered with 400 and the explanatory plain-text body, regardless of the
parsed method and path, for every filesystem and store (so no handler runs
and the store is unchanged). -/
theorem c4_http10_rejected_with_400 (fsRead : Str → FileReadResult)
    (store : BlobStore) (storage_root raw : Str) (m : HttpMethod) (p : Str)
    (h : parse_request_line (requestLineOf raw) =
      some (m, p, HttpVersion.V1_0)) :
    handle_connection fsRead store storage_root raw =
      some (.text (respond_bad_request none
        (some "this server only supports HTTP version 1.1.".data)), store) := by
  simp [handle_connection, h]

/-- C4 witness: the concrete request `GET / HTTP/1.0` is answered 400. -/
theorem c4_http10_witness :
    handle_connection (fun _ => FileReadResult.openErr) (fun _ => none) []
      "GET / HTTP/1.0\r\n\r\n".data =
      some (.text (respond_bad_request none
        (some "this server only supports HTTP version 1.1.".data)),
        fun _ => none) :=
  c4_http10_rejected_with_400 (fun _ => FileReadResult.openErr) (fun _ => none)
    [] "GET / HTTP/1.0\r\n\r\n".data HttpMethod.GET "/".data (by rfl)

/-- C5: every POST request to a `/files/` path whose Content-Type header is
not application/octet-stream is answered 400 with the "unexpected content
type" body, and the blob store is unchanged. -/
theorem c5_post_wrong_content_type_400 (fsRead : Str → FileReadResult)
    (store : BlobStore) (storage_root raw path : Str)
    (h : parse_request_line (requestLineOf raw) =
      some (HttpMethod.POST, path, HttpVersion.V1_1))
    (hpre : "/files/".data.isPrefixOf path = true)
    (hct : (HttpRequestHeaderParser.parse (headerLinesOf raw)).is_content_type
      ContentType.ApplicationOctetStream = false) :
    handle_connection fsRead store storage_root raw =
      some (.text (respond_bad_request none
        (some "unexpected content type".data)), store) := by
  simp [handle_connection, h, hpre, endpoint_post_files, hct]

/-- C5 witness: a concrete `POST /files/x` with Content-Type text/plain is
answered 400 and the (empty) store is returned unchanged. -/
theorem c5_post_wrong_content_type_witness :
    handle_connection (fun _ => FileReadResult.openErr) (fun _ => none)
      "/tmp/".data
      "POST /files/x HTTP/1.1\r\nContent-Type: text/plain\r\n\r\nhello".data =
      some (.text (respond_bad_request none
        (some "unexpected content type".data)), fun _ => none) :=
  c5_post_wrong_content_type_400 (fun _ => FileReadResult.openErr)
    (fun _ => none) "/tmp/".data
    "POST /files/x HTTP/1.1\r\nContent-Type: text/plain\r\n\r\nhello".data
    "/files/x".data (by rfl) (by rfl) (by rfl)

/-- C6 counterexample: the claim says every `POST /files/{name}` whose target
already exists is answered 409; but the content-type check runs first, so a
POST to an existing target with Content-Type text/plain is answered 400, not
409, even though the target exists. -/
theorem c6_existing_target_wrong_ct_is_400 :
    ((fun p => if p = "/tmp/x".data then some [9] else none : BlobStore)
      ("/tmp/".data ++ pathRemainder "/files/x".data)).isSome = true ∧
    (endpoint_post_files
      (fun p => if p = "/tmp/x".data then some [9] else none)
      "/tmp/".data "/files/x".data
      (HttpRequestHeaderParser.parse ["Content-Type: text/plain".data])
      (some (HttpRequestBody.new [1]))).1 =
      .text (respond_bad_request none (some "unexpected content type".data)) ∧
    (endpoint_post_files
      (fun p => if p = "/tmp/x".data then some [9] else none)
      "/tmp/".data "/files/x".data
      (HttpRequestHeaderParser.parse ["Content-Type: text/plain".data])
      (some (HttpRequestBody.new [1]))).1 ≠
      .text (respond_conflict none (some "file already exists.".data)) := by
  refine ⟨rfl, rfl, ?_⟩
  decide

/-- C6 (amended): for every POST `/files/{name}` request with Content-Type
application/octet-stream, if the target blob already exists the response is
409 and the store is unchanged (no overwrite); if the target does not exist
and a body is present, the blob is created with exactly the body's bytes and
the response is 201 with empty headers and body. -/
theorem c6_post_create_conflict_semantics (store : BlobStore)
    (storage_root path : Str) (hp : HttpRequestHeaderParser)
    (body : Option HttpRequestBody)
    (hct : hp.is_content_type ContentType.ApplicationOctetStream = true) :
    ((store (storage_root ++ pathRemainder path)).isSome = true →
      endpoint_post_files store storage_root path hp body =
        (.text (respond_conflict none (some "file already exists.".data)),
         store)) ∧
    (store (storage_root ++ pathRemainder path) = none →
      ∀ b, body = some b →
        endpoint_post_files store storage_root path hp body =
          (.text (respond_created none none),
           fun p => if p = storage_root ++ pathRemainder path
             then some b.as_bytes else store p)) := by
  constructor
  · intro hex
    simp [endpoint_post_files, hct, hex]
  · intro hex b hb
    simp [endpoint_post_files, hct, hex, hb]

/-- C6 witness: with an octet-stream POST, an existing target gives 409 with
the store unchanged, and an absent target gives 201 with the body's bytes
stored under the joined path. -/
theorem c6_post_create_conflict_witness :
    endpoint_post_files (fun p => if p = "/tmp/x".data then some [9] else none)
      "/tmp/".data "/files/x".data
      (HttpRequestHeaderParser.parse
        ["Content-Type: application/octet-stream".data])
      (some (HttpRequestBody.new [1, 2])) =
      (.text (respond_conflict none (some "file already exists.".data)),
       fun p => if p = "/tmp/x".data then some [9] else none) ∧
    endpoint_post_files (fun _ => none)
      "/tmp/".data "/files/x".data
      (HttpRequestHeaderParser.parse
        ["Content-Type: application/octet-stream".data])
      (some (HttpRequestBody.new [1, 2])) =
      (.text (respond_created none none),
       fun p => if p = "/tmp/".data ++ pathRemainder "/files/x".data
         then some (HttpRequestBody.new [1, 2]).as_bytes else none) := by
  constructor
  · exact (c6_post_create_conflict_semantics
      (fun p => if p = "/tmp/x".data then some [9] else none)
      "/tmp/".data "/files/x".data
      (HttpRequestHeaderParser.parse
        ["Content-Type: application/octet-stream".data])
      (some (HttpRequestBody.new [1, 2])) (by rfl)).1 (by rfl)
  · exact (c6_post_create_conflict_semantics (fun _ => none)
      "/tmp/".data "/files/x".data
      (HttpRequestHeaderParser.parse
        ["Content-Type: application/octet-stream".data])
      (some (HttpRequestBody.new [1, 2])) (by rfl)).2 (by rfl)
      (HttpRequestBody.new [1, 2]) (by rfl)

/-- C7: every GET request whose path starts with `/echo/` is answered 200
with Content-Type text/plain, body equal to the path remainder (first two
path segments stripped, the rest rejoined with `/`, embedded slashes
preserved), and Content-Length equal to that body's byte length. -/
theorem c7_echo_returns_remainder (fsRead : Str → FileReadResult)
    (store : BlobStore) (storage_root raw path : Str)
    (h : parse_request_line (requestLineOf raw) =
      some (HttpMethod.GET, path, HttpVersion.V1_1))
    (hpre : "/echo/".data.isPrefixOf path = true) :
    handle_connection fsRead store storage_root raw =
      some (.text
        ("HTTP/1.1 200 OK\r\nContent-Type: text/plain\r\nContent-Length: ".data
          ++ (Nat.repr (strBytes (pathRemainder path)).length).data
          ++ "\r\n\r\n".data ++ pathRemainder path), store) := by
  have hne := echo_marker_ne_root path hpre
  simp [handle_connection, h, hne, hpre, endpoint_get_echo,
    respond_string_body_none]

/-- C7 witness: `GET /echo/abc/def` is answered 200 with body exactly
`abc/def` and Content-Length 7. -/
theorem c7_echo_witness :
    handle_connection (fun _ => FileReadResult.openErr) (fun _ => none) []
      "GET /echo/abc/def HTTP/1.1\r\n\r\n".data =
      some (.text
        ("HTTP/1.1 200 OK\r\nContent-Type: text/plain\r\nContent-Length: ".data
          ++ (Nat.repr (strBytes (pathRemainder "/echo/abc/def".data)).length).data
          ++ "\r\n\r\n".data ++ pathRemainder "/echo/abc/def".data),
        fun _ => none) ∧
    pathRemainder "/echo/abc/def".data = "abc/def".data ∧
    (strBytes (pathRemainder "/echo/abc/def".data)).length = 7 := by
  refine ⟨?_, by decide, by decide⟩
  exact c7_echo_returns_remainder (fun _ => FileReadResult.openErr)
    (fun _ => none) [] "GET /echo/abc/def HTTP/1.1\r\n\r\n".data
    "/echo/abc/def".data (by rfl) (by rfl)

/-- C8: every GET `/user-agent` request carrying a User-Agent header is
answered 200 with the header's value as the text body; without that header
the answer is the 404 response (not a 400). -/
theorem c8_user_agent_reflection (fsRead : Str → FileReadResult)
    (store : BlobStore) (storage_root raw : Str)
    (h : parse_request_line (requestLineOf raw) =
      some (HttpMethod.GET, "/user-agent".data, HttpVersion.V1_1)) :
    (∀ ua, (HttpRequestHeaderParser.parse (headerLinesOf raw)).get_header_value
        HttpRequestHeaders.UserAgent = some ua →
      handle_connection fsRead store storage_root raw =
        some (.text
          ("HTTP/1.1 200 OK\r\nContent-Type: text/plain\r\nContent-Length: ".data
            ++ (Nat.repr (strBytes ua).length).data
            ++ "\r\n\r\n".data ++ ua), store)) ∧
    ((HttpRequestHeaderParser.parse (headerLinesOf raw)).get_header_value
        HttpRequestHeaders.UserAgent = none →
      handle_connection fsRead store storage_root raw =
        some (.text (respond_not_found none none), store)) := by
  constructor
  · intro ua hua
    simp [handle_connection, h, endpoint_get_user_agent, hua,
      respond_string_body_none,
      show "/user-agent".data ≠ "/".data from by decide,
      show ("/echo/".data.isPrefixOf "/user-agent".data) = false from by decide]
  · intro hua
    simp [handle_connection, h, endpoint_get_user_agent, hua,
      show "/user-agent".data ≠ "/".data from by decide,
      show ("/echo/".data.isPrefixOf "/user-agent".data) = false from by decide]

/-- C8 witness: `GET /user-agent` with `User-Agent: xyz` is answered 200 with
body `xyz`; the same request without the header is answered 404. -/
theorem c8_user_agent_witness :
    handle_connection (fun _ => FileReadResult.openErr) (fun _ => none) []
      "GET /user-agent HTTP/1.1\r\nUser-Agent: xyz\r\n\r\n".data =
      some (.text
        ("HTTP/1.1 200 OK\r\nContent-Type: text/plain\r\nContent-Length: ".data
          ++ (Nat.repr (strBytes "xyz".data).length).data
          ++ "\r\n\r\n".data ++ "xyz".data), fun _ => none) ∧
    handle_connection (fun _ => FileReadResult.openErr) (fun _ => none) []
      "GET /user-agent HTTP/1.1\r\nHost: h\r\n\r\n".data =
      some (.text (respond_not_found none none), fun _ => none) := by
  constructor
  · exact (c8_user_agent_reflection (fun _ => FileReadResult.openErr)
      (fun _ => none) []
      "GET /user-agent HTTP/1.1\r\nUser-Agent: xyz\r\n\r\n".data (by rfl)).1
      "xyz".data (by rfl)
  · exact (c8_user_agent_reflection (fun _ => FileReadResult.openErr)
      (fun _ => none) []
      "GET /user-agent HTTP/1.1\r\nHost: h\r\n\r\n".data (by rfl)).2 (by rfl)

/-- C9: every request-line of exactly three whitespace-separated tokens with
a recognized method token and version token `HTTP/1.1` parses successfully,
and mapping the parsed method, path and version back to their wire tokens
reproduces the original three tokens. -/
theorem c9_request_line_round_trip (rl mt p vt : Str) (m : HttpMethod)
    (hsplit : splitWS rl = [mt, p, vt])
    (hm : HttpMethod.from_token mt = some m)
    (hv : HttpVersion.from_token vt = some HttpVersion.V1_1) :
    parse_request_line rl = some (m, p, HttpVersion.V1_1) ∧
    [HttpMethod.to_token m, p, HttpVersion.to_token HttpVersion.V1_1] =
      [mt, p, vt] := by
  constructor
  · simp [parse_request_line, hsplit, hm, hv]
  · have hmt : HttpMethod.to_token m = mt := by
      cases m <;>
        (unfold HttpMethod.from_token at hm
         split_ifs at hm <;> simp_all [HttpMethod.to_token])
    have hvt : HttpVersion.to_token HttpVersion.V1_1 = vt := by
      unfold HttpVersion.from_token at hv
      split_ifs at hv <;> simp_all [HttpVersion.to_token]
    rw [hmt, hvt]

/-- C9 witness: the concrete request-line `POST /files/a HTTP/1.1` parses and
round-trips to its original tokens. -/
theorem c9_round_trip_witness :
    parse_request_line "POST /files/a HTTP/1.1".data =
      some (HttpMethod.POST, "/files/a".data, HttpVersion.V1_1) ∧
    [HttpMethod.to_token HttpMethod.POST, "/files/a".data,
      HttpVersion.to_token HttpVersion.V1_1] =
      ["POST".data, "/files/a".data, "HTTP/1.1".data] :=
  c9_request_line_round_trip "POST /files/a HTTP/1.1".data
    "POST".data "/files/a".data "HTTP/1.1".data HttpMethod.POST
    (by rfl) (by rfl) (by rfl)

/-- C10: the file-write handler checks Content-Type first, then target
existence, then body presence; so a POST `/files/{name}` request with
Content-Type application/octet-stream whose target exists and whose body is
missing is answered 409 (existence wins), not the 400 a missing body alone
would produce. -/
theorem c10_existence_checked_before_body (store : BlobStore)
    (storage_root path : Str) (hp : HttpRequestHeaderParser)
    (hct : hp.is_content_type ContentType.ApplicationOctetStream = true)
    (hex : (store (storage_root ++ pathRemainder path)).isSome = true) :
    endpoint_post_files store storage_root path hp none =
      (.text (respond_conflict none (some "file already exists.".data)),
       store) := by
  simp [endpoint_post_files, hct, hex]

/-- C10 witness: a concrete octet-stream POST with an existing target and no
body is answered 409. -/
theorem c10_existence_before_body_witness :
    endpoint_post_files (fun p => if p = "/tmp/x".data then some [9] else none)
      "/tmp/".data "/files/x".data
      (HttpRequestHeaderParser.parse
        ["Content-Type: application/octet-stream".data]) none =
      (.text (respond_conflict none (some "file already exists.".data)),
       fun p => if p = "/tmp/x".data then some [9] else none) :=
  c10_existence_checked_before_body
    (fun p => if p = "/tmp/x".data then some [9] else none)
    "/tmp/".data "/files/x".data
    (HttpRequestHeaderParser.parse
      ["Content-Type: application/octet-stream".data]) (by rfl) (by rfl)
